import Mathlib

/-!
# Verification of the city-population HTTP service

A shallow embedding of the service in `src/app` (`models.py`, `database.py`,
`main.py`): a FastAPI application exposing upsert/get/list operations over
city-population records stored in an Elasticsearch index.

Modelling choices:
* Python strings are lists of characters (`Str`).
* `str.strip()` is `pyStrip` (drop ASCII whitespace from both ends) and
  `str.lower()` is `pyLower` (ASCII lowercasing, the fragment of Python's
  Unicode lowercasing relevant to the identifiers handled here).
* The Elasticsearch index is an association list of documents keyed by the
  document id (`Store`); `client.index` with `id=city` replaces the document
  with that id, `client.get` is a point lookup raising a not-found error for
  an unknown id, and `client.search` with a sort and a size cap is a sort
  plus `take`.
* Fallible calls return `Except` values; exceptions carry their message so
  that the message-sniffing in `get_city` can be modelled faithfully.
-/

namespace CityPop

/-- Python strings, modelled as lists of characters. -/
abbrev Str := List Char

/-- The ASCII whitespace characters removed by Python's `str.strip()`. -/
def pyIsSpace (c : Char) : Bool :=
  c = ' ' || c = '\t' || c = '\n' || c = '\r' || c = '\x0b' || c = '\x0c'

/-- ASCII lowercasing of a single character, as done by Python's
`str.lower()` on the ASCII range. -/
def pyLowerChar (c : Char) : Char :=
  if c = 'A' then 'a' else if c = 'B' then 'b' else if c = 'C' then 'c'
  else if c = 'D' then 'd' else if c = 'E' then 'e' else if c = 'F' then 'f'
  else if c = 'G' then 'g' else if c = 'H' then 'h' else if c = 'I' then 'i'
  else if c = 'J' then 'j' else if c = 'K' then 'k' else if c = 'L' then 'l'
  else if c = 'M' then 'm' else if c = 'N' then 'n' else if c = 'O' then 'o'
  else if c = 'P' then 'p' else if c = 'Q' then 'q' else if c = 'R' then 'r'
  else if c = 'S' then 's' else if c = 'T' then 't' else if c = 'U' then 'u'
  else if c = 'V' then 'v' else if c = 'W' then 'w' else if c = 'X' then 'x'
  else if c = 'Y' then 'y' else if c = 'Z' then 'z' else c

/-- Python `str.lower()`. -/
def pyLower (s : Str) : Str := s.map pyLowerChar

/-- Python `str.strip()`: remove whitespace from both ends. -/
def pyStrip (s : Str) : Str := (s.dropWhile pyIsSpace).rdropWhile pyIsSpace

/-- The normalization computed by the route handlers in `main.py`:
`name.lower().strip()`. -/
def pyNormalize (s : Str) : Str := pyStrip (pyLower s)

/-- The normalization as the specification words it: trim, then lowercase. -/
def specNormalize (s : Str) : Str := pyLower (pyStrip s)

/-- The ASCII uppercase letters. -/
def uppersAZ : List Char :=
  ['A', 'B', 'C', 'D', 'E', 'F', 'G', 'H', 'I', 'J', 'K', 'L', 'M',
   'N', 'O', 'P', 'Q', 'R', 'S', 'T', 'U', 'V', 'W', 'X', 'Y', 'Z']

theorem pyLowerChar_of_notUpper {c : Char} (hc : ∀ u ∈ uppersAZ, c ≠ u) :
    pyLowerChar c = c := by
  unfold pyLowerChar
  rw [if_neg (hc 'A' (by decide)), if_neg (hc 'B' (by decide)),
    if_neg (hc 'C' (by decide)), if_neg (hc 'D' (by decide)),
    if_neg (hc 'E' (by decide)), if_neg (hc 'F' (by decide)),
    if_neg (hc 'G' (by decide)), if_neg (hc 'H' (by decide)),
    if_neg (hc 'I' (by decide)), if_neg (hc 'J' (by decide)),
    if_neg (hc 'K' (by decide)), if_neg (hc 'L' (by decide)),
    if_neg (hc 'M' (by decide)), if_neg (hc 'N' (by decide)),
    if_neg (hc 'O' (by decide)), if_neg (hc 'P' (by decide)),
    if_neg (hc 'Q' (by decide)), if_neg (hc 'R' (by decide)),
    if_neg (hc 'S' (by decide)), if_neg (hc 'T' (by decide)),
    if_neg (hc 'U' (by decide)), if_neg (hc 'V' (by decide)),
    if_neg (hc 'W' (by decide)), if_neg (hc 'X' (by decide)),
    if_neg (hc 'Y' (by decide)), if_neg (hc 'Z' (by decide))]

theorem pyIsSpace_pyLowerChar (c : Char) :
    pyIsSpace (pyLowerChar c) = pyIsSpace c := by
  by_cases hc : ∀ u ∈ uppersAZ, c ≠ u
  · rw [pyLowerChar_of_notUpper hc]
  · push_neg at hc
    obtain ⟨u, hu, rfl⟩ := hc
    fin_cases hu <;> decide

theorem pyLowerChar_pyLowerChar (c : Char) :
    pyLowerChar (pyLowerChar c) = pyLowerChar c := by
  by_cases hc : ∀ u ∈ uppersAZ, c ≠ u
  · rw [pyLowerChar_of_notUpper hc, pyLowerChar_of_notUpper hc]
  · push_neg at hc
    obtain ⟨u, hu, rfl⟩ := hc
    fin_cases hu <;> decide

theorem pyLower_pyLower (s : Str) : pyLower (pyLower s) = pyLower s := by
  simp only [pyLower, List.map_map]
  exact List.map_congr_left fun c _ => pyLowerChar_pyLowerChar c

theorem pyLower_length (s : Str) : (pyLower s).length = s.length :=
  List.length_map s pyLowerChar

theorem pyIsSpace_comp_pyLowerChar : pyIsSpace ∘ pyLowerChar = pyIsSpace :=
  funext pyIsSpace_pyLowerChar

/-- Lowercasing commutes with dropping leading whitespace. -/
theorem dropWhile_pyLower (s : Str) :
    (pyLower s).dropWhile pyIsSpace = pyLower (s.dropWhile pyIsSpace) := by
  simp only [pyLower]
  rw [List.dropWhile_map, pyIsSpace_comp_pyLowerChar]

/-- Lowercasing commutes with dropping trailing whitespace. -/
theorem rdropWhile_pyLower (s : Str) :
    (pyLower s).rdropWhile pyIsSpace = pyLower (s.rdropWhile pyIsSpace) := by
  simp only [pyLower, List.rdropWhile]
  rw [← List.map_reverse, List.dropWhile_map, pyIsSpace_comp_pyLowerChar,
    List.map_reverse]

/-- Lowercasing commutes with stripping. -/
theorem pyStrip_pyLower (s : Str) :
    pyStrip (pyLower s) = pyLower (pyStrip s) := by
  unfold pyStrip
  rw [dropWhile_pyLower, rdropWhile_pyLower]

/-- A list that survives a leading `dropWhile` still does so after its
trailing segment is removed. -/
theorem dropWhile_rdropWhile_of_dropWhile {α : Type} {p : α → Bool}
    {l : List α} (h : l.dropWhile p = l) :
    (l.rdropWhile p).dropWhile p = l.rdropWhile p := by
  rcases hd : l.rdropWhile p with _ | ⟨a, tl⟩
  · rfl
  · obtain ⟨t, ht⟩ := List.rdropWhile_prefix p l
    rw [hd] at ht
    rw [← ht, List.cons_append, List.dropWhile_cons] at h
    by_cases hp : p a
    · rw [if_pos hp] at h
      have hsub := (List.dropWhile_sublist (l := tl ++ t) p).length_le
      rw [h] at hsub
      simp only [List.length_cons] at hsub
      omega
    · rw [List.dropWhile_cons, if_neg hp]

/-- Python `strip` is idempotent. -/
theorem pyStrip_idem (s : Str) : pyStrip (pyStrip s) = pyStrip s := by
  unfold pyStrip
  rw [dropWhile_rdropWhile_of_dropWhile (List.dropWhile_idempotent _ _),
    List.rdropWhile_idempotent]

/-- The key stored by the upsert handler (`strip`, `lower`, `strip`) is the
specification's normal form (`strip`, then `lower`). -/
theorem pyStrip_pyLower_pyStrip (s : Str) :
    pyStrip (pyLower (pyStrip s)) = pyLower (pyStrip s) := by
  rw [pyStrip_pyLower, pyStrip_idem]

/-- The handlers' `lower().strip()` agrees with the specification's
trim-then-lowercase normal form. -/
theorem pyNormalize_eq_specNormalize (s : Str) :
    pyNormalize s = specNormalize s := by
  unfold pyNormalize specNormalize
  rw [pyStrip_pyLower]

/-- Stripping a whitespace-only string yields the empty string. -/
theorem pyStrip_eq_nil_of_space {s : Str} (h : ∀ c ∈ s, pyIsSpace c = true) :
    pyStrip s = [] := by
  unfold pyStrip
  rw [List.dropWhile_eq_nil_iff.mpr h]
  rfl

/-! ## Validation layer (`src/app/models.py`)

The pydantic model `CityPopulation` requires `city : str` with
`min_length=1` and `max_length=100` (checked on the submitted value), a
custom validator rejecting names that are empty after `strip()` and
returning the stripped name, and `population : int` with `ge=0`. -/

/-- A validated city-population submission (`CityPopulation` in
`models.py`): `city` is the name as returned by the field validator
(stripped), `population` the submitted count. -/
structure CityPopulation where
  city : Str
  population : Int
deriving DecidableEq

/-- Pydantic validation of a `POST /city` body: `some` of the validated
model when all field constraints hold, `none` (a 422 response from
FastAPI) otherwise. -/
def validateCityPopulation (city : Str) (population : Int) :
    Option CityPopulation :=
  if city.length < 1 then none
  else if 100 < city.length then none
  else if pyStrip city = [] then none
  else if population < 0 then none
  else some ⟨pyStrip city, population⟩

/-! ## Store adapter (`src/app/database.py`)

The Elasticsearch index is an association list of documents keyed by
document id; `upsert_city` indexes with `id=city`, replacing any document
with the same id, `get_city` is a point lookup that converts the client's
not-found exception (recognised by sniffing the message text) into `None`,
and `list_all_cities` is a `match_all` search sorted ascending by the
`city` keyword field, capped at 10000 hits. -/

/-- The backing index: documents keyed by their id (the normalized city
name), each carrying a population. -/
abbrev Store := List (Str × Int)

/-- `client.index(index=…, id=city, body=…)`: replace the document whose
id is `city`, or create it. -/
def esIndex (store : Store) (id : Str) (population : Int) : Store :=
  store.filter (fun doc => doc.1 ≠ id) ++ [(id, population)]

/-- `client.get(index=…, id=city)` viewed as a pure lookup: the stored
population when the id is present. -/
def esGetById (store : Store) (id : Str) : Option Int :=
  (store.find? (fun doc => doc.1 = id)).map (fun doc => doc.2)

/-- The outcome of the raw `client.get` call: either the document's
population, or an exception carrying its message text. -/
inductive ESGetRaw where
  | doc (population : Int)
  | exn (msg : Str)
deriving DecidableEq

/-- The message of the elasticsearch client's not-found exception. -/
def esNotFoundMsg : Str := "NotFoundError(404, \x27not_found\x27)".toList

/-- Raw behavior of `client.get` against a reachable index: the document
when the id is present, a `NotFoundError` otherwise. -/
def esGetRaw (store : Store) (id : Str) : ESGetRaw :=
  match esGetById store id with
  | some population => .doc population
  | none => .exn esNotFoundMsg

/-- Python `sub in s` for strings. -/
def strContains (s sub : Str) : Bool :=
  s.tails.any (fun t => sub.isPrefixOf t)

/-- The message sniffing in `get_city`'s `except` clause:
`'not_found' in str(e).lower() or 'notfounderror' in str(e).lower() or
"'found': false" in str(e).lower()`. -/
def errorIndicatesNotFound (msg : Str) : Bool :=
  strContains (pyLower msg) ("not_found".toList) ||
  strContains (pyLower msg) ("notfounderror".toList) ||
  strContains (pyLower msg) ("\x27found\x27: false".toList)

/-- `ElasticsearchClient.get_city`: returns the population, converts an
exception whose message indicates not-found into `None`, and re-raises
any other exception. -/
def get_city (raw : ESGetRaw) : Except Str (Option Int) :=
  match raw with
  | .doc population => .ok (some population)
  | .exn msg =>
      if errorIndicatesNotFound msg then .ok none else .error msg

/-- `get_city` wired to a reachable index. -/
def getCityFromStore (store : Store) (id : Str) : Except Str (Option Int) :=
  get_city (esGetRaw store id)

/-- Lexicographic (code-point) order on strings, the ascending sort order
of the `city` keyword field. -/
def strLe : Str → Str → Bool
  | [], _ => true
  | _ :: _, [] => false
  | a :: as, b :: bs =>
    if a.toNat < b.toNat then true
    else if b.toNat < a.toNat then false
    else strLe as bs

/-- Document order used by `list_all_cities`: ascending by `city`. -/
def docLe (a b : Str × Int) : Bool := strLe a.1 b.1

/-- `ElasticsearchClient.list_all_cities`: a `match_all` search sorted
ascending by `city`, with `size: 10000`. -/
def list_all_cities (store : Store) : Store :=
  (store.mergeSort docLe).take 10000

/-- The cluster-health probe's view of the cluster: a reported status
string, or a connection error. -/
inductive ClusterHealth where
  | status (s : Str)
  | connError (msg : Str)
deriving DecidableEq

/-- `ElasticsearchClient.health_check`: true when the cluster reports
`green` or `yellow`; any exception is swallowed and reported as false. -/
def health_check (h : ClusterHealth) : Bool :=
  match h with
  | .status s => s = "green".toList || s = "yellow".toList
  | .connError _ => false

/-! ## Request router (`src/app/main.py`) -/

/-- Python truthiness of an `Optional[int]`, as used by
`operation = "update" if existing else "insert"`: `None` and `0` are
falsy. -/
def pyTruthyOptInt : Option Int → Bool
  | none => false
  | some population => population ≠ 0

/-- Outcome of `POST /city`: a 422 pydantic validation failure, the
handler's own 400 for a negative population, or a 200 with the echoed
city, population, and operation label. -/
inductive UpsertResult where
  | validationError
  | badRequest
  | success (city : Str) (population : Int) (operation : String)
deriving DecidableEq

/-- Status code of a `POST /city` response. -/
def upsertStatus : UpsertResult → Nat
  | .validationError => 422
  | .badRequest => 400
  | .success _ _ _ => 200

/-- The `POST /city` handler `upsert_city` in `main.py`, composed with
FastAPI's body validation: validate, normalize (`lower().strip()`),
reject negative populations, read the existing record to label the
operation, then index the document. Returns the response and the store
after the request. -/
def upsert_city (store : Store) (rawCity : Str) (rawPopulation : Int) :
    UpsertResult × Store :=
  match validateCityPopulation rawCity rawPopulation with
  | none => (.validationError, store)
  | some cityData =>
      let city_name := pyStrip (pyLower cityData.city)
      let population := cityData.population
      if population < 0 then (.badRequest, store)
      else
        let existing := esGetById store city_name
        let operation := if pyTruthyOptInt existing then "update" else "insert"
        (.success city_name population operation,
          esIndex store city_name population)

/-- Outcome of `GET /city/{city_name}`: 200 with the normalized name and
population, 404 when absent, 500 when the store lookup raised. -/
inductive GetResult where
  | ok (city : Str) (population : Int)
  | notFound (city : Str)
  | serverError (msg : Str)
deriving DecidableEq

/-- Status code of a `GET /city/{city_name}` response. -/
def getStatus : GetResult → Nat
  | .ok _ _ => 200
  | .notFound _ => 404
  | .serverError _ => 500

/-- The `GET /city/{city_name}` handler `get_city_population` in
`main.py`: normalize the path parameter, look the city up, 404 when the
lookup reports absence. -/
def get_city_population (store : Store) (rawName : Str) : GetResult :=
  match getCityFromStore store (pyStrip (pyLower rawName)) with
  | .ok (some population) => .ok (pyStrip (pyLower rawName)) population
  | .ok none => .notFound (pyStrip (pyLower rawName))
  | .error msg => .serverError msg

/-- The `GET /cities` handler: `{count: len(cities), cities: cities}`. -/
def listCitiesResponse (store : Store) : Nat × Store :=
  ((list_all_cities store).length, list_all_cities store)

/-! ## API operation sequences -/

/-- One inbound API request, as far as the store is concerned. -/
inductive ApiOp where
  | postCity (city : Str) (population : Int)
  | getCity (name : Str)
  | listCities
  | health (h : ClusterHealth)

/-- The store after handling one request (only `POST /city` writes). -/
def applyOp (store : Store) (op : ApiOp) : Store :=
  match op with
  | .postCity c p => (upsert_city store c p).2
  | .getCity _ => store
  | .listCities => store
  | .health _ => store

/-- The store after a sequence of API requests starting from an empty
index. -/
def runOps (ops : List ApiOp) : Store := ops.foldl applyOp []

/-- The store invariant of the specification: every stored document has a
non-negative population and a non-empty, trimmed, lowercase id. -/
def goodDoc (doc : Str × Int) : Prop :=
  0 ≤ doc.2 ∧ doc.1 ≠ [] ∧ pyStrip doc.1 = doc.1 ∧ pyLower doc.1 = doc.1

/-- All documents of a store satisfy the invariant. -/
def storeInv (store : Store) : Prop := ∀ doc ∈ store, goodDoc doc

/-! ## Helper lemmas -/

/-- Inversion of a successful validation. -/
theorem validate_inv {city : Str} {population : Int} {data : CityPopulation}
    (h : validateCityPopulation city population = some data) :
    data.city = pyStrip city ∧ data.population = population ∧
    1 ≤ city.length ∧ city.length ≤ 100 ∧ pyStrip city ≠ [] ∧
    0 ≤ population := by
  unfold validateCityPopulation at h
  split_ifs at h with h1 h2 h3 h4
  cases Option.some.inj h
  exact ⟨rfl, rfl, by omega, by omega, h3, by omega⟩

/-- `get_city` against a reachable index never raises: the not-found
exception of the client is converted to `None` by the message check. -/
theorem getCityFromStore_eq (store : Store) (id : Str) :
    getCityFromStore store id = Except.ok (esGetById store id) := by
  unfold getCityFromStore esGetRaw
  cases h : esGetById store id with
  | some population => rfl
  | none =>
      show get_city (.exn esNotFoundMsg) = Except.ok none
      simp only [get_city]
      rw [if_pos (by decide)]

/-- Reading back the key just written returns the population written. -/
theorem esGetById_esIndex_self (store : Store) (id : Str) (population : Int) :
    esGetById (esIndex store id population) id = some population := by
  unfold esGetById esIndex
  rw [List.find?_append]
  have h1 : (store.filter (fun doc => doc.1 ≠ id)).find?
      (fun doc => doc.1 = id) = none := by
    rw [List.find?_eq_none]
    intro x hx
    simp only [List.mem_filter, decide_not, Bool.not_eq_eq_eq_not,
      Bool.not_true, decide_eq_false_iff_not] at hx
    simp only [decide_eq_true_eq]
    exact hx.2
  rw [h1]
  simp [List.find?]

/-- The shape of a `POST /city` request that passes validation. -/
theorem upsert_city_of_valid {store : Store} {rawCity : Str}
    {population : Int} {data : CityPopulation}
    (h : validateCityPopulation rawCity population = some data) :
    upsert_city store rawCity population =
      (UpsertResult.success (pyLower (pyStrip rawCity)) population
        (if pyTruthyOptInt (esGetById store (pyLower (pyStrip rawCity)))
          then "update" else "insert"),
       esIndex store (pyLower (pyStrip rawCity)) population) := by
  obtain ⟨hc, hp, _, _, _, hge⟩ := validate_inv h
  unfold upsert_city
  rw [h]
  simp only [hc, hp, pyStrip_pyLower_pyStrip]
  rw [if_neg (by omega)]

/-- The empty store satisfies the invariant. -/
theorem storeInv_nil : storeInv [] := by
  intro doc hd
  exact absurd hd (List.not_mem_nil doc)

/-- The key actually stored by the upsert handler is a good document key. -/
theorem goodDoc_norm {raw : Str} (h : pyStrip raw ≠ []) {population : Int}
    (hp : 0 ≤ population) : goodDoc (pyLower (pyStrip raw), population) := by
  refine ⟨hp, ?_, pyStrip_pyLower_pyStrip raw, pyLower_pyLower (pyStrip raw)⟩
  intro heq
  exact h (List.map_eq_nil_iff.mp heq)

/-- Indexing a good document preserves the invariant. -/
theorem storeInv_esIndex {store : Store} (h : storeInv store)
    {id : Str} {population : Int} (hdoc : goodDoc (id, population)) :
    storeInv (esIndex store id population) := by
  intro doc hd
  rcases List.mem_append.mp hd with hmem | hmem
  · exact h doc (List.mem_of_mem_filter hmem)
  · rw [List.mem_singleton.mp hmem]
    exact hdoc

/-- Handling any single request preserves the invariant. -/
theorem storeInv_applyOp {store : Store} (h : storeInv store) (op : ApiOp) :
    storeInv (applyOp store op) := by
  cases op with
  | postCity c p =>
      show storeInv (upsert_city store c p).2
      cases hv : validateCityPopulation c p with
      | none =>
          unfold upsert_city
          rw [hv]
          exact h
      | some data =>
          rw [upsert_city_of_valid hv]
          obtain ⟨_, _, _, _, hne, hge⟩ := validate_inv hv
          exact storeInv_esIndex h (goodDoc_norm hne hge)
  | getCity _ => exact h
  | listCities => exact h
  | health _ => exact h

/-- Every store reachable from the empty store satisfies the invariant. -/
theorem storeInv_runOps (ops : List ApiOp) : storeInv (runOps ops) := by
  unfold runOps
  have key : ∀ store : Store, storeInv store →
      storeInv (ops.foldl applyOp store) := by
    induction ops with
    | nil => exact fun _ hs => hs
    | cons op rest ih => exact fun s hs => ih _ (storeInv_applyOp hs op)
  exact key [] storeInv_nil

/-- The empty string is never a key of an invariant-respecting store. -/
theorem esGetById_nil_of_inv {store : Store} (h : storeInv store) :
    esGetById store [] = none := by
  unfold esGetById
  have h1 : store.find? (fun doc => doc.1 = ([] : Str)) = none := by
    rw [List.find?_eq_none]
    intro x hx
    simp only [decide_eq_true_eq]
    exact (h x hx).2.1
  rw [h1]
  rfl

/-- `strLe` is total. -/
theorem strLe_total : ∀ a b : Str, (strLe a b || strLe b a) = true
  | [], b => by simp [strLe]
  | a :: as, [] => by simp [strLe]
  | a :: as, b :: bs => by
      simp only [strLe]
      by_cases h1 : a.toNat < b.toNat
      · simp [h1]
      · by_cases h2 : b.toNat < a.toNat
        · simp [h1, h2]
        · simp only [if_neg h1, if_neg h2]
          exact strLe_total as bs

/-- `strLe` is transitive. -/
theorem strLe_trans : ∀ a b c : Str,
    strLe a b = true → strLe b c = true → strLe a c = true
  | [], _, _, _, _ => by simp [strLe]
  | a :: as, [], c, hab, _ => by simp [strLe] at hab
  | a :: as, b :: bs, [], _, hbc => by simp [strLe] at hbc
  | a :: as, b :: bs, c :: cs, hab, hbc => by
      simp only [strLe] at hab hbc ⊢
      by_cases hab1 : a.toNat < b.toNat
      · by_cases hbc1 : b.toNat < c.toNat
        · rw [if_pos (by omega : a.toNat < c.toNat)]
        · by_cases hbc2 : c.toNat < b.toNat
          · rw [if_neg hbc1, if_pos hbc2] at hbc
            exact absurd hbc (by simp)
          · rw [if_pos (by omega : a.toNat < c.toNat)]
      · by_cases hab2 : b.toNat < a.toNat
        · rw [if_neg hab1, if_pos hab2] at hab
          exact absurd hab (by simp)
        · rw [if_neg hab1, if_neg hab2] at hab
          by_cases hbc1 : b.toNat < c.toNat
          · rw [if_pos (by omega : a.toNat < c.toNat)]
          · by_cases hbc2 : c.toNat < b.toNat
            · rw [if_neg hbc1, if_pos hbc2] at hbc
              exact absurd hbc (by simp)
            · rw [if_neg hbc1, if_neg hbc2] at hbc
              rw [if_neg (by omega : ¬ a.toNat < c.toNat),
                if_neg (by omega : ¬ c.toNat < a.toNat)]
              exact strLe_trans as bs cs hab hbc

/-- `docLe` is transitive. -/
theorem docLe_trans (a b c : Str × Int) :
    docLe a b → docLe b c → docLe a c :=
  fun hab hbc => strLe_trans a.1 b.1 c.1 hab hbc

/-- `docLe` is total. -/
theorem docLe_total (a b : Str × Int) : (docLe a b || docLe b a) = true :=
  strLe_total a.1 b.1

/-! ## Claims -/

/-- C1: for every submission that passes validation, performing the
`POST /city` upsert and then `GET /city` on any string with the same
normalized form (trim plus lowercase) returns a 200 carrying exactly the
submitted population (and the normalized name). -/
theorem claim_C1_upsert_then_get {store : Store} {rawCity variant : Str}
    {population : Int} {data : CityPopulation}
    (hvalid : validateCityPopulation rawCity population = some data)
    (hnorm : specNormalize variant = specNormalize rawCity) :
    get_city_population (upsert_city store rawCity population).2 variant =
      GetResult.ok (specNormalize rawCity) population := by
  rw [upsert_city_of_valid hvalid]
  have hkey : pyStrip (pyLower variant) = pyLower (pyStrip rawCity) := by
    rw [pyStrip_pyLower]
    exact hnorm
  show get_city_population (esIndex store (pyLower (pyStrip rawCity))
    population) variant = GetResult.ok (specNormalize rawCity) population
  unfold get_city_population
  rw [hkey, getCityFromStore_eq, esGetById_esIndex_self]
  rfl

/-- C1 witness: upserting ("New York", 100) and reading back
"  NEW york " yields population 100. -/
theorem claim_C1_witness :
    get_city_population
        (upsert_city [] ("New York".toList) 100).2 ("  NEW york ".toList) =
      GetResult.ok (specNormalize ("New York".toList)) 100 :=
  @claim_C1_upsert_then_get [] ("New York".toList) ("  NEW york ".toList)
    100 ⟨"New York".toList, 100⟩ (by decide) (by decide)

/-- C2 (divergence of the code from the claim): store population 0 for
city "x", then repeat the identical POST. The record exists (the prior
read returns population 0), yet the handler labels the second call
"insert", because `operation = "update" if existing else "insert"`
tests Python truthiness of the population value, and `0` is falsy. -/
theorem claim_C2_counterexample :
    esGetById (upsert_city [] ("x".toList) 0).2 ("x".toList) = some 0 ∧
    (upsert_city (upsert_city [] ("x".toList) 0).2 ("x".toList) 0).1 =
      UpsertResult.success ("x".toList) 0 "insert" := by
  decide

/-- The behavior the code exhibits when the stored population is
nonzero: with any nonzero stored population the repeated identical POST
is labelled "update". Together with the counterexample above this pins
the label down to truthiness of the stored value, not existence. -/
theorem upsert_repeat_nonzero_update {store : Store} {rawCity : Str}
    {population : Int} {data : CityPopulation}
    (hvalid : validateCityPopulation rawCity population = some data)
    (hpos : population ≠ 0) :
    (upsert_city (upsert_city store rawCity population).2
        rawCity population).1 =
      UpsertResult.success (pyLower (pyStrip rawCity)) population
        "update" := by
  have h1 := @upsert_city_of_valid store rawCity population data hvalid
  rw [h1]
  show (upsert_city (esIndex store (pyLower (pyStrip rawCity)) population)
    rawCity population).1 =
    UpsertResult.success (pyLower (pyStrip rawCity)) population "update"
  rw [upsert_city_of_valid hvalid, esGetById_esIndex_self]
  simp only [pyTruthyOptInt]
  rw [if_pos (by simpa using hpos)]

/-- C3: a `POST /city` whose population is negative is rejected by the
validation layer with a 400-class status (422 from pydantic/FastAPI;
the handler's own 400 branch is unreachable behind it), and the store is
left unchanged — no write happens. -/
theorem claim_C3_negative_population {store : Store} {city : Str}
    {population : Int} (hneg : population < 0) :
    upsert_city store city population =
      (UpsertResult.validationError, store) ∧
    400 ≤ upsertStatus (upsert_city store city population).1 ∧
    upsertStatus (upsert_city store city population).1 < 500 := by
  have hv : validateCityPopulation city population = none := by
    unfold validateCityPopulation
    split_ifs <;> rfl
  have hu : upsert_city store city population =
      (UpsertResult.validationError, store) := by
    unfold upsert_city
    rw [hv]
  refine ⟨hu, ?_, ?_⟩ <;> rw [hu] <;> norm_num [upsertStatus]

/-- C3 witness: `POST /city {"city":"X","population":-5}` is rejected and
writes nothing. -/
theorem claim_C3_witness :
    upsert_city [] ("X".toList) (-5) = (UpsertResult.validationError, []) :=
  (claim_C3_negative_population (by decide)).1

/-- C4 counterexample to the claim as stated: the name made of `'a'`
followed by 100 spaces has trimmed length 1 (within 1..100) and the
population 0 is non-negative, so the claim says the submission is
accepted — but validation rejects it, because pydantic's
`max_length=100` is checked on the raw name before the validator trims
it. -/
theorem claim_C4_counterexample :
    1 ≤ (pyStrip ('a' :: List.replicate 100 ' ')).length ∧
    (pyStrip ('a' :: List.replicate 100 ' ')).length ≤ 100 ∧
    (0 : Int) ≥ 0 ∧
    validateCityPopulation ('a' :: List.replicate 100 ' ') 0 = none := by
  decide

/-- C4 (amended): validation accepts exactly those submissions whose raw
(untrimmed) city name has length 1..100, whose name is non-empty after
trimming, and whose population is non-negative; the accepted record
carries the trimmed name and the submitted population. -/
theorem claim_C4_amended_validation (city : Str) (population : Int) :
    ((validateCityPopulation city population).isSome ↔
      1 ≤ city.length ∧ city.length ≤ 100 ∧ pyStrip city ≠ [] ∧
        0 ≤ population) ∧
    ∀ data, validateCityPopulation city population = some data →
      data.city = pyStrip city ∧ data.population = population := by
  constructor
  · constructor
    · intro h
      obtain ⟨data, hd⟩ := Option.isSome_iff_exists.mp h
      obtain ⟨_, _, h1, h2, h3, h4⟩ := validate_inv hd
      exact ⟨h1, h2, h3, h4⟩
    · rintro ⟨h1, h2, h3, h4⟩
      unfold validateCityPopulation
      rw [if_neg (by omega), if_neg (by omega), if_neg h3,
        if_neg (by omega)]
      rfl
  · intro data hd
    obtain ⟨ha, hb, _⟩ := validate_inv hd
    exact ⟨ha, hb⟩

/-- C4 witness: the example body `{"city":"Tokyo","population":13960000}`
is accepted. -/
theorem claim_C4_witness :
    (validateCityPopulation ("Tokyo".toList) 13960000).isSome :=
  (claim_C4_amended_validation ("Tokyo".toList) 13960000).1.mpr (by decide)

/-- C5: `get_city` on an id that is absent from the store returns the
explicit absent signal (`ok none`) without raising, the
`GET /city/{city_name}` endpoint then responds 404, and `get_city`
raises (surfaced as a 500) only for exceptions whose message does not
indicate not-found. -/
theorem claim_C5_get_absent :
    (∀ (store : Store) (id : Str), esGetById store id = none →
      getCityFromStore store id = Except.ok none) ∧
    (∀ (store : Store) (rawName : Str),
      esGetById store (pyStrip (pyLower rawName)) = none →
      get_city_population store rawName =
        GetResult.notFound (pyStrip (pyLower rawName)) ∧
      getStatus (get_city_population store rawName) = 404) ∧
    (∀ (raw : ESGetRaw) (msg : Str), get_city raw = Except.error msg →
      raw = ESGetRaw.exn msg ∧ errorIndicatesNotFound msg = false) := by
  refine ⟨fun store id h => ?_, fun store rawName h => ?_,
    fun raw msg h => ?_⟩
  · rw [getCityFromStore_eq, h]
  · have hg : get_city_population store rawName =
        GetResult.notFound (pyStrip (pyLower rawName)) := by
      unfold get_city_population
      rw [getCityFromStore_eq, h]
    exact ⟨hg, by rw [hg]; rfl⟩
  · cases raw with
    | doc population => exact absurd h (by simp [get_city])
    | exn m =>
        simp only [get_city] at h
        by_cases hm : errorIndicatesNotFound m
        · rw [if_pos hm] at h
          exact absurd h (by simp)
        · rw [if_neg hm] at h
          cases Except.error.inj h
          exact ⟨rfl, by simpa using hm⟩

/-- C5 witness: `GET /city/Atlantis` against a store holding only
"tokyo" responds 404. -/
theorem claim_C5_witness :
    get_city_population [("tokyo".toList, 5)] ("Atlantis".toList) =
      GetResult.notFound (pyStrip (pyLower ("Atlantis".toList))) :=
  (claim_C5_get_absent.2.1 [("tokyo".toList, 5)] ("Atlantis".toList)
    (by decide)).1

/-- C6: `list_all_cities` returns the stored records sorted ascending by
city id, capped at 10000 with records beyond the cap omitted (it returns
a permutation of the whole store when the store fits under the cap, and
`min 10000 n` records in general); on the empty store it returns the
empty list; the endpoint's reported count equals the length of the
returned list. -/
theorem claim_C6_list_all (store : Store) :
    (list_all_cities store).Pairwise (fun a b => docLe a b = true) ∧
    (list_all_cities store).length = min 10000 store.length ∧
    (store.length ≤ 10000 → (list_all_cities store).Perm store) ∧
    list_all_cities [] = [] ∧
    (listCitiesResponse store).1 = (listCitiesResponse store).2.length := by
  have hperm : (store.mergeSort docLe).Perm store :=
    List.mergeSort_perm store docLe
  have hsort : (store.mergeSort docLe).Pairwise
      (fun a b => docLe a b = true) :=
    List.sorted_mergeSort docLe_trans docLe_total store
  refine ⟨?_, ?_, ?_, by simp [list_all_cities], rfl⟩
  · exact List.Pairwise.sublist (List.take_sublist 10000 _) hsort
  · unfold list_all_cities
    rw [List.length_take, hperm.length_eq]
  · intro hle
    unfold list_all_cities
    rw [List.take_of_length_le (by rw [hperm.length_eq]; exact hle)]
    exact hperm

/-- C6 witness: a two-record store is below the cap, so listing returns
a permutation of it (the sorted one). -/
theorem claim_C6_witness :
    (list_all_cities [("b".toList, 2), ("a".toList, 1)]).Perm
      [("b".toList, 2), ("a".toList, 1)] :=
  (claim_C6_list_all [("b".toList, 2), ("a".toList, 1)]).2.2.1 (by decide)

/-- C7: the health probe is a total function of the cluster response
(it never raises); it reports healthy exactly for reported statuses
"green" and "yellow", and reports false on a connection error. -/
theorem claim_C7_health_check (h : ClusterHealth) :
    (health_check h = true ↔
      h = ClusterHealth.status ("green".toList) ∨
      h = ClusterHealth.status ("yellow".toList)) ∧
    ∀ msg, health_check (ClusterHealth.connError msg) = false := by
  refine ⟨?_, fun msg => rfl⟩
  cases h with
  | status s => simp [health_check]
  | connError m => simp [health_check]

/-- C8: after every sequence of API operations starting from the empty
store, every stored record has a non-negative population and a
non-empty, trimmed, lowercase city identifier. -/
theorem claim_C8_store_invariant (ops : List ApiOp) :
    ∀ doc ∈ runOps ops, 0 ≤ doc.2 ∧ doc.1 ≠ [] ∧
      pyStrip doc.1 = doc.1 ∧ pyLower doc.1 = doc.1 :=
  fun doc hd => storeInv_runOps ops doc hd

/-- C8 witness: after `POST /city {"city":"  Tokyo ","population":5}`
the stored record is ("tokyo", 5), which satisfies the invariant. -/
theorem claim_C8_witness :
    0 ≤ (("tokyo".toList, (5 : Int))).2 ∧
    (("tokyo".toList, (5 : Int))).1 ≠ [] ∧
    pyStrip (("tokyo".toList, (5 : Int))).1 =
      (("tokyo".toList, (5 : Int))).1 ∧
    pyLower (("tokyo".toList, (5 : Int))).1 =
      (("tokyo".toList, (5 : Int))).1 :=
  claim_C8_store_invariant [ApiOp.postCity ("  Tokyo ".toList) 5]
    ("tokyo".toList, 5) (by decide)

/-- C9: the store adapter's upsert is idempotent: indexing the same
id/population twice leaves exactly the state of indexing it once. -/
theorem claim_C9_upsert_idempotent (store : Store) (city : Str)
    (population : Int) :
    esIndex (esIndex store city population) city population =
      esIndex store city population := by
  unfold esIndex
  rw [List.filter_append]
  simp [List.filter_filter]

/-- C10: a whitespace-only path parameter normalizes to the empty
string, and `GET /city/{city_name}` responds 404 on every store
reachable from the empty store (the empty string is never a stored
identifier), not a validation error and not a 500. -/
theorem claim_C10_whitespace_name (ops : List ApiOp) (name : Str)
    (hws : ∀ c ∈ name, pyIsSpace c = true) :
    pyStrip (pyLower name) = [] ∧
    get_city_population (runOps ops) name = GetResult.notFound [] ∧
    getStatus (get_city_population (runOps ops) name) = 404 := by
  have hlow : ∀ c ∈ pyLower name, pyIsSpace c = true := by
    intro c hc
    obtain ⟨d, hd, rfl⟩ := List.mem_map.mp hc
    rw [pyIsSpace_pyLowerChar]
    exact hws d hd
  have hnil : pyStrip (pyLower name) = [] := pyStrip_eq_nil_of_space hlow
  have hget : esGetById (runOps ops) ([] : Str) = none :=
    esGetById_nil_of_inv (storeInv_runOps ops)
  have hmain : get_city_population (runOps ops) name =
      GetResult.notFound [] := by
    unfold get_city_population
    rw [hnil, getCityFromStore_eq, hget]
  exact ⟨hnil, hmain, by rw [hmain]; rfl⟩

/-- C10 witness: `GET /city/%20%20%20` (three spaces) after storing
Paris responds 404 with the name normalized to the empty string. -/
theorem claim_C10_witness :
    pyStrip (pyLower ("   ".toList)) = [] ∧
    get_city_population (runOps [ApiOp.postCity ("Paris".toList) 3])
        ("   ".toList) = GetResult.notFound [] ∧
    getStatus (get_city_population (runOps [ApiOp.postCity
        ("Paris".toList) 3]) ("   ".toList)) = 404 :=
  claim_C10_whitespace_name [ApiOp.postCity ("Paris".toList) 3]
    ("   ".toList) (by decide)

end CityPop
